import Mathlib

/-!
Verification of the OECD ingestion handler (`handler.py`): a shallow embedding
of its fetch / dedupe / store pipeline, followed by theorems about the
embedded definitions.

Modelling conventions:
* Python `bytes` values are `List Nat` (each element a byte value).
* `hashlib.sha256(...).hexdigest()` is embedded as an executable SHA-256
  over byte lists producing the lowercase hex digest string.
* `datetime` values are embedded as a Gregorian civil-date structure plus a
  day count since 1970-01-01 (the conversion is the standard era-based
  algorithm, matching `datetime.date`'s proleptic Gregorian calendar).
* External effects (HTTP responses, S3 writes, DynamoDB reads/writes,
  `time.sleep`) are made explicit: the network is an oracle mapping a URL and
  an attempt number to a response, S3 and DynamoDB are a `World` state
  threaded through the functions, and sleeps performed are returned as a
  trace.  The text of exceptions raised by external libraries (boto3) is
  modelled by a fixed message constant.
* The wall-clock readings within one invocation are modelled as a single
  instant `now` supplied as a parameter.
* Environment-variable parsing in `lambda_handler` (lines 154-166) is not
  modelled; the handler model starts from the parsed configuration values,
  which is where every claim under verification begins.
-/

namespace OecdIngest

/-- Byte strings: Python `bytes` as a list of byte values. -/
abbrev Bytes := List Nat

/-- Two to the 32nd: word arithmetic in SHA-256 is modulo this. -/
def M32 : Nat := 4294967296

/-- Rotate a 32-bit word right by `n`. -/
def rotr (n x : Nat) : Nat := ((x >>> n) ||| (x <<< (32 - n))) % M32

/-- SHA-256 choice function. -/
def shaCh (x y z : Nat) : Nat := (x &&& y) ^^^ ((x ^^^ 4294967295) &&& z)

/-- SHA-256 majority function. -/
def shaMaj (x y z : Nat) : Nat := (x &&& y) ^^^ (x &&& z) ^^^ (y &&& z)

/-- SHA-256 big sigma-0. -/
def bigS0 (x : Nat) : Nat := rotr 2 x ^^^ rotr 13 x ^^^ rotr 22 x

/-- SHA-256 big sigma-1. -/
def bigS1 (x : Nat) : Nat := rotr 6 x ^^^ rotr 11 x ^^^ rotr 25 x

/-- SHA-256 small sigma-0. -/
def smallS0 (x : Nat) : Nat := rotr 7 x ^^^ rotr 18 x ^^^ (x >>> 3)

/-- SHA-256 small sigma-1. -/
def smallS1 (x : Nat) : Nat := rotr 17 x ^^^ rotr 19 x ^^^ (x >>> 10)

/-- SHA-256 round constants (FIPS 180-4, written in decimal). -/
def shaK : List Nat :=
  [1116352408, 1899447441, 3049323471, 3921009573, 961987163, 1508970993,
   2453635748, 2870763221, 3624381080, 310598401, 607225278, 1426881987,
   1925078388, 2162078206, 2614888103, 3248222580, 3835390401, 4022224774,
   264347078, 604807628, 770255983, 1249150122, 1555081692, 1996064986,
   2554220882, 2821834349, 2952996808, 3210313671, 3336571891, 3584528711,
   113926993, 338241895, 666307205, 773529912, 1294757372, 1396182291,
   1695183700, 1986661051, 2177026350, 2456956037, 2730485921, 2820302411,
   3259730800, 3345764771, 3516065817, 3600352804, 4094571909, 275423344,
   430227734, 506948616, 659060556, 883997877, 958139571, 1322822218,
   1537002063, 1747873779, 1955562222, 2024104815, 2227730452, 2361852424,
   2428436474, 2756734187, 3204031479, 3329325298]

/-- SHA-256 initial hash state (FIPS 180-4, written in decimal). -/
def shaH0 : List Nat :=
  [1779033703, 3144134277, 1013904242, 2773480762,
   1359893119, 2600822924, 528734635, 1541459225]

/-- The `k` big-endian bytes of `n`. -/
def beBytes (k n : Nat) : Bytes :=
  (List.range k).map (fun i => n >>> (8 * (k - 1 - i)) &&& 255)

/-- SHA-256 message padding: a 1-bit, zeros to 56 mod 64 bytes, then the
bit length as 8 big-endian bytes. -/
def padMessage (msg : Bytes) : Bytes :=
  msg ++ [128] ++ List.replicate ((119 - msg.length % 64) % 64) 0 ++ beBytes 8 (8 * msg.length)

/-- Group bytes into 32-bit big-endian words. -/
def bytesToWords : Bytes → List Nat
  | a :: b :: c :: d :: rest => (((a * 256 + b) * 256 + c) * 256 + d) :: bytesToWords rest
  | _ => []

/-- Split into 64-byte blocks, with explicit fuel for structural recursion. -/
def chunkAux : Nat → Bytes → List Bytes
  | 0, _ => []
  | _, [] => []
  | fuel + 1, l => l.take 64 :: chunkAux fuel (l.drop 64)

/-- Split a byte list into 64-byte blocks. -/
def chunk64 (l : Bytes) : List Bytes := chunkAux l.length l

/-- Extend a 16-word block to the 64-word SHA-256 message schedule. -/
def buildSchedule (w16 : List Nat) : List Nat :=
  (List.range 48).foldl
    (fun w i =>
      w ++ [(smallS1 (w.getD (i + 14) 0) + w.getD (i + 9) 0 +
             smallS0 (w.getD (i + 1) 0) + w.getD i 0) % M32])
    w16

/-- One SHA-256 compression round on the 8-word working state. -/
def compressStep (k w : Nat) (s : List Nat) : List Nat :=
  match s with
  | [a, b, c, d, e, f, g, h] =>
    let t1 := (h + bigS1 e + shaCh e f g + k + w) % M32
    let t2 := (bigS0 a + shaMaj a b c) % M32
    [(t1 + t2) % M32, a, b, c, (d + t1) % M32, e, f, g]
  | s => s

/-- SHA-256 compression of one 64-byte block into the hash state. -/
def compressBlock (h : List Nat) (block : Bytes) : List Nat :=
  let ws := buildSchedule (bytesToWords block)
  let s := (List.zip shaK ws).foldl (fun s kw => compressStep kw.1 kw.2 s) h
  (List.zip h s).map (fun p => (p.1 + p.2) % M32)

/-- The eight 32-bit words of the SHA-256 digest of a message. -/
def sha256words (msg : Bytes) : List Nat :=
  (chunk64 (padMessage msg)).foldl compressBlock shaH0

/-- Lowercase hex digit for a value below 16 (48 is the code of `0`, 87 + 10
that of `a`). -/
def hexDigit (n : Nat) : Char :=
  if n < 10 then Char.ofNat (48 + n) else Char.ofNat (87 + n)

/-- Eight lowercase hex characters of a 32-bit word. -/
def hex8 (n : Nat) : List Char :=
  (List.range 8).map (fun i => hexDigit (n >>> (4 * (7 - i)) &&& 15))

/-- Embeds `sha256` (handler.py line 78): `hashlib.sha256(data).hexdigest()`,
the lowercase hex digest of the SHA-256 of `data`. -/
def sha256 (data : Bytes) : String :=
  String.mk ((sha256words data).map hex8).flatten

/-- A Gregorian civil date, as held by a Python `datetime.date`. -/
structure Date where
  year : Nat
  month : Nat
  day : Nat
deriving DecidableEq, Repr

/-- Civil date from a count of days since 1970-01-01 (proleptic Gregorian,
the era-based conversion; valid for all dates from year 1 on, which covers
every date `datetime` produces here). -/
def civilFromDays (epochDays : Nat) : Date :=
  let z := epochDays + 719468
  let era := z / 146097
  let doe := z % 146097
  let yoe := (doe - doe / 1460 + doe / 36524 - doe / 146096) / 365
  let y := yoe + era * 400
  let doy := doe - (365 * yoe + yoe / 4 - yoe / 100)
  let mp := (5 * doy + 2) / 153
  let d := doy - (153 * mp + 2) / 5 + 1
  let m := if mp < 10 then mp + 3 else mp - 9
  ⟨if m ≤ 2 then y + 1 else y, m, d⟩

/-- Days since 1970-01-01 of a civil date (inverse of `civilFromDays` on
dates from 1970 on, which is where this model is used). -/
def daysFromCivil (dt : Date) : Nat :=
  let y := if dt.month ≤ 2 then dt.year - 1 else dt.year
  let era := y / 400
  let yoe := y % 400
  let mp := (dt.month + 9) % 12
  let doy := (153 * mp + 2) / 5 + dt.day - 1
  let doe := yoe * 365 + yoe / 4 - yoe / 100 + doy
  era * 146097 + doe - 719468

/-- Zero-pad the decimal form of `n` to `width` characters. -/
def padNum (width n : Nat) : String :=
  let s := toString n
  String.mk (List.replicate (width - s.length) '0') ++ s

/-- ISO `YYYY-MM-DD` form of a date, as `date.isoformat()` prints it. -/
def isoDate (dt : Date) : String :=
  padNum 4 dt.year ++ "-" ++ padNum 2 dt.month ++ "-" ++ padNum 2 dt.day

/-- An instant of UTC wall-clock time: a day count since 1970-01-01 plus the
time of day, the data `strftime` reads in `put_if_new`. -/
structure Instant where
  days : Nat
  hour : Nat
  minute : Nat
  second : Nat
deriving DecidableEq, Repr

/-- Embeds `now.strftime("%Y%m%d")` (handler.py line 94). -/
def dateStr (t : Instant) : String :=
  let dt := civilFromDays t.days
  padNum 4 dt.year ++ padNum 2 dt.month ++ padNum 2 dt.day

/-- Embeds `now.strftime("%Y%m%dT%H%M%SZ")` (handler.py line 95). -/
def tsStr (t : Instant) : String :=
  dateStr t ++ "T" ++ padNum 2 t.hour ++ padNum 2 t.minute ++ padNum 2 t.second ++ "Z"

/-- Embeds `build_oecd_urls` (handler.py lines 17-41): the two candidate
URLs, the incremental `lastNObservations` form first, then the
`startPeriod` fallback whose start date is `now` minus `last_n_obs * 2`
days (the code comment: "past N*2 days ~ generous for
annual/quarterly/monthly"). -/
def build_oecd_urls (dataset_id key_path : String) (last_n_obs : Nat) (fmt : String)
    (now : Instant) : List String :=
  let base := "https://stats.oecd.org/sdmx-json/data/" ++ dataset_id ++ "/" ++ key_path
  let params_common := "detail=DataOnly&dimensionAtObservation=AllDimensions"
  let params_common :=
    if fmt = "csv" then params_common ++ "&contentType=csv&separator=comma"
    else params_common ++ "&contentType=json"
  let url_lastN := base ++ "?" ++ params_common ++ "&lastNObservations=" ++ toString last_n_obs
  let start := isoDate (civilFromDays (now.days - last_n_obs * 2))
  let url_start := base ++ "?" ++ params_common ++ "&startPeriod=" ++ start
  [url_lastN, url_start]

/-- What one HTTP GET attempt at a URL comes back with: a body, an
`urllib.error.HTTPError` with a status code and reason, or some other
exception (`except Exception`) with its type name and message. -/
inductive HttpResult where
  | success (body : Bytes)
  | httpError (code : Nat) (reason : String)
  | ioError (typeName msg : String)
deriving DecidableEq, Repr

/-- An exception held by `last_err` in `http_get`: an HTTP error, a generic
exception, or the initial `None` (raised only if the loop never ran). -/
inductive FetchErr where
  | http (code : Nat) (reason : String)
  | io (typeName msg : String)
  | nothingRaised
deriving DecidableEq, Repr

/-- The status codes `http_get` treats as transient (handler.py line 53). -/
def transientCodes : List Nat := [429, 500, 502, 503, 504]

/-- Decidable equality for `Except`, so runs of the embedded functions can be
compared by evaluation. -/
instance exceptDecEq {ε α : Type} [DecidableEq ε] [DecidableEq α] :
    DecidableEq (Except ε α) := fun a b =>
  match a, b with
  | .error e, .error f => decidable_of_iff (e = f) (by simp)
  | .error _, .ok _ => .isFalse (by simp)
  | .ok _, .error _ => .isFalse (by simp)
  | .ok x, .ok y => decidable_of_iff (x = y) (by simp)

/-- What a run of `http_get` did: its returned body or raised exception, the
`time.sleep` delays it performed in order, and how many GET attempts it made. -/
structure GetOutcome where
  result : Except FetchErr Bytes
  sleeps : List Nat
  attempts : Nat
deriving DecidableEq, Repr

/-- The retry loop of `http_get` (handler.py lines 45-60). `net` maps the
attempt number to that attempt's response; `rem` is the number of loop
iterations left, `attempt` the Python loop variable. A transient HTTP error
(handler.py line 53) sleeps `2 * attempt` and retries; any other HTTP error
breaks out of the loop at once; a generic exception sleeps and retries; an
exhausted loop raises `last_err`. -/
def httpGetAux (net : Nat → HttpResult) :
    Nat → Nat → Option FetchErr → List Nat → Nat → GetOutcome
  | _, 0, lastErr, sleeps, tries =>
    ⟨.error (lastErr.getD .nothingRaised), sleeps.reverse, tries⟩
  | attempt, rem + 1, _, sleeps, tries =>
    match net attempt with
    | .success body => ⟨.ok body, sleeps.reverse, tries + 1⟩
    | .httpError code reason =>
      if code ∈ transientCodes then
        httpGetAux net (attempt + 1) rem (some (.http code reason))
          (2 * attempt :: sleeps) (tries + 1)
      else
        ⟨.error (.http code reason), sleeps.reverse, tries + 1⟩
    | .ioError typeName msg =>
      httpGetAux net (attempt + 1) rem (some (.io typeName msg))
        (2 * attempt :: sleeps) (tries + 1)

/-- Embeds `http_get` (handler.py lines 43-60) for a fixed URL whose
responses are given by `net`. -/
def http_get (net : Nat → HttpResult) (retries : Nat := 3) : GetOutcome :=
  httpGetAux net 1 retries none [] 0

/-- The text `f"{type(e).__name__}: {e}"` produces for a caught exception
(for `HTTPError`, `str(e)` is `"HTTP Error {code}: {reason}"`). -/
def errString : FetchErr → String
  | .http code reason => "HTTPError: HTTP Error " ++ toString code ++ ": " ++ reason
  | .io typeName msg => typeName ++ ": " ++ msg
  | .nothingRaised => "TypeError: exceptions must derive from BaseException"

/-- The message of the `RuntimeError` raised when every candidate URL failed
(handler.py line 75), carrying the per-URL error summaries. -/
def fetchExhaustedMsg (dataset_id key_path : String) (errs : List String) : String :=
  "All OECD fetch attempts failed for " ++ dataset_id ++ "/" ++ key_path ++ ": " ++
    String.intercalate " | " errs

/-- The candidate-URL loop of `fetch_oecd` (handler.py lines 65-74): try each
URL with `http_get`; a body that is empty or shorter than 32 bytes counts as
a failure; error summaries accumulate in order. -/
def fetchAux (net : String → Nat → HttpResult) :
    List String → List String → Except (List String) (Bytes × String)
  | [], err_acc => .error err_acc
  | url :: rest, err_acc =>
    match (http_get (net url)).result with
    | .ok blob =>
      if blob = [] ∨ blob.length < 32 then
        fetchAux net rest (err_acc ++ ["Empty/short response from " ++ url.take 120])
      else
        .ok (blob, url)
    | .error e => fetchAux net rest (err_acc ++ [errString e])

/-- Embeds `fetch_oecd` (handler.py lines 62-75): build the two candidate
URLs, accept the first plausible body, and otherwise raise a `RuntimeError`
carrying every per-URL error summary. -/
def fetch_oecd (net : String → Nat → HttpResult) (dataset_id key_path : String)
    (last_n_obs : Nat) (fmt : String) (now : Instant) : Except String (Bytes × String) :=
  match fetchAux net (build_oecd_urls dataset_id key_path last_n_obs fmt now) [] with
  | .ok r => .ok r
  | .error errs => .error (fetchExhaustedMsg dataset_id key_path errs)

/-- A DynamoDB ledger item (handler.py lines 106-111), minus its key. -/
structure LedgerEntry where
  last_hash : String
  last_url : String
  last_run : String
deriving DecidableEq, Repr

/-- DynamoDB `get_item` on the dedupe table: lookup by the `dataset`
partition key. -/
def ddbGet (tbl : List (String × LedgerEntry)) (k : String) : Option LedgerEntry :=
  (tbl.find? (fun kv => kv.1 == k)).map (fun kv => kv.2)

/-- DynamoDB `put_item` on the dedupe table: full overwrite of the single
item with partition key `k`. -/
def ddbPut (tbl : List (String × LedgerEntry)) (k : String) (v : LedgerEntry) :
    List (String × LedgerEntry) :=
  match tbl with
  | [] => [(k, v)]
  | kv :: rest => if kv.1 == k then (k, v) :: rest else kv :: ddbPut rest k v

/-- One S3 `put_object` call as issued at handler.py lines 125-132: bucket,
key, body, content type, the two metadata fields, and the optional
`ContentEncoding` header. -/
structure S3Put where
  bucket : String
  key : String
  body : Bytes
  contentType : String
  metaSourceUrl : String
  metaSha256 : String
  contentEncoding : Option String
deriving DecidableEq, Repr

/-- The external stores the pipeline mutates: the DynamoDB dedupe table's
items and the log of S3 objects written, in order. -/
structure World where
  ledger : List (String × LedgerEntry)
  s3 : List S3Put
deriving DecidableEq, Repr

/-- Embeds `maybe_compress` (handler.py lines 81-88). The external gzip
library is a parameter `gz`; when compression is on the result carries the
`ContentEncoding: gzip` header. -/
def maybe_compress (gz : Bytes → Bytes) (data : Bytes) (do_gzip : Bool) :
    Bytes × Option String :=
  if do_gzip then (gz data, some "gzip") else (data, none)

/-- Python `s.rstrip("/")`: drop every trailing slash. -/
def rstripSlash (s : String) : String :=
  String.mk ((s.data.reverse.dropWhile (fun c => c == '/')).reverse)

/-- A per-dataset result dictionary, with one optional slot per key the
Python code ever writes; `none` is an absent key. -/
structure ResultDict where
  dataset : Option String := none
  stored : Option Bool := none
  reason : Option String := none
  hash : Option String := none
  s3_key : Option String := none
  url : Option String := none
  error : Option String := none
deriving DecidableEq, Repr

/-- The storage key built at handler.py line 122:
`prefix/dataset_id/YYYYMMDD/dataset_id_YYYYMMDDTHHMMSSZ_hash12.ext`. -/
def archiveKey ( s3_prefix dataset_id : String) (now : Instant)
    (content_hash ext : String) : String :=
  rstripSlash s3_prefix ++ "/" ++ dataset_id ++ "/" ++ dateStr now ++ "/" ++
    dataset_id ++ "_" ++ tsStr now ++ "_" ++ content_hash.take 12 ++ "." ++ ext

/-- Models the text of the exception boto3 raises when the S3 `put_object`
call fails (its exact wording is environment-specific; only that it is a
non-empty message matters to the handler). -/
def s3FailureMsg : String := "ClientError: S3 put_object failed"

/-- Embeds `put_if_new` (handler.py lines 90-138). Beyond the source
parameters, `gz` is the external gzip library, `s3ok` says whether the S3
`put_object` call succeeds (when it fails the function raises, modelled as
`.error`), `now` is the wall clock, and `w` the external-store state. The
returned world reflects every write performed before a raise: in
particular the DynamoDB `put_item` at lines 106-111 happens before the S3
`put_object` at lines 125-132. -/
def put_if_new (gz : Bytes → Bytes) (s3ok : Bool) (dataset_id url_used : String)
    (raw : Bytes) (s3_bucket s3_prefix fmt : String) (gzip_output : Bool)
    (ddb_table_name : Option String) (now : Instant) (w : World) :
    Except String ResultDict × World :=
  let content_hash := sha256 raw
  let ts_str := tsStr now
  let enabled : Bool :=
    match ddb_table_name with
    | some t => t != ""
    | none => false
  let step : Bool × World :=
    if enabled then
      match ddbGet w.ledger dataset_id with
      | some item =>
        if item.last_hash = content_hash then (false, w)
        else (true, { w with ledger := ddbPut w.ledger dataset_id ⟨content_hash, url_used, ts_str⟩ })
      | none => (true, { w with ledger := ddbPut w.ledger dataset_id ⟨content_hash, url_used, ts_str⟩ })
    else (true, w)
  let dedup_ok := step.1
  let w1 := step.2
  if ¬ dedup_ok then
    (.ok { stored := some false, reason := some "unchanged",
           hash := some content_hash, url := some url_used }, w1)
  else
    let ext := if fmt = "csv" then "csv" else "json"
    let key := archiveKey s3_prefix dataset_id now content_hash ext
    let bodyHeaders := maybe_compress gz raw gzip_output
    let ct := if fmt = "csv" then "text/csv" else "application/json"
    if s3ok then
      (.ok { stored := some true, s3_key := some key,
             hash := some content_hash, url := some url_used },
       { w1 with s3 := w1.s3 ++
           [⟨s3_bucket, key, bodyHeaders.1, ct, url_used, content_hash, bodyHeaders.2⟩] })
    else
      (.error s3FailureMsg, w1)

/-- The parsed configuration of one invocation together with the modelled
environment: the external gzip library, the network oracle (URL and attempt
number to response), whether the S3 write for a given dataset succeeds, and
the invocation's wall-clock instant. -/
structure Ctx where
  gz : Bytes → Bytes
  net : String → Nat → HttpResult
  s3ok : String → Bool
  now : Instant
  s3_bucket : String
  s3_prefix : String
  fmt : String
  gzip_output : Bool
  last_n_obs : Nat
  ddb_table : Option String
  keys_map : List (String × String)

/-- Python's truthiness of `r.get("stored")`. -/
def truthyBool : Option Bool → Bool
  | some b => b
  | none => false

/-- Python's truthiness of `r.get("error")` (absent and `""` are falsy). -/
def truthyStr : Option String → Bool
  | some s => s != ""
  | none => false

/-- Lookup in the parsed `OECD_KEYS_JSON` mapping. -/
def assocGet (m : List (String × String)) (k : String) : Option String :=
  (m.find? (fun kv => kv.1 == k)).map (fun kv => kv.2)

/-- The key path for a dataset: `keys_map.get(ds, "all")` (handler.py
line 170). -/
def keyPathOf (c : Ctx) (ds : String) : String :=
  (assocGet c.keys_map ds).getD "all"

/-- The fetch a given invocation performs for dataset `ds`: a pure function
of the configuration and network oracle. -/
def fetchOf (c : Ctx) (ds : String) : Except String (Bytes × String) :=
  fetch_oecd c.net ds (keyPathOf c ds) c.last_n_obs c.fmt c.now

/-- The loop body of `lambda_handler` (handler.py lines 170-177): fetch,
archive-if-new, tag the result with the dataset id, and convert any raised
exception into an `error` entry. -/
def processDataset (c : Ctx) (ds : String) (w : World) : ResultDict × World :=
  match fetchOf c ds with
  | .error e => ({ dataset := some ds, error := some e }, w)
  | .ok (raw, url_used) =>
    match put_if_new c.gz (c.s3ok ds) ds url_used raw c.s3_bucket c.s3_prefix c.fmt
        c.gzip_output c.ddb_table c.now w with
    | (.ok out, w2) => ({ out with dataset := some ds }, w2)
    | (.error e, w2) => ({ dataset := some ds, error := some e }, w2)

/-- The dataset loop of `lambda_handler`: one result per configured dataset,
threading the external-store state left to right. -/
def runDatasets (c : Ctx) : List String → World → List ResultDict × World
  | [], w => ([], w)
  | ds :: rest, w =>
    let rw := processDataset c ds w
    let rest2 := runDatasets c rest rw.2
    (rw.1 :: rest2.1, rest2.2)

/-- The structured report `lambda_handler` returns (handler.py
lines 181-189). -/
structure Report where
  statusCode : Nat
  stored : Nat
  unchanged : Nat
  errors : Nat
  results : List ResultDict
deriving DecidableEq, Repr

/-- Python `r.get("stored") or r.get("reason") == "unchanged"`, the `ok`
filter at handler.py line 179. -/
def isOkResult (r : ResultDict) : Bool :=
  truthyBool r.stored || r.reason == some "unchanged"

/-- Python `r.get("error")` as a filter, handler.py line 180. -/
def isErrResult (r : ResultDict) : Bool :=
  truthyStr r.error

/-- Embeds `lambda_handler` (handler.py lines 141-189) from the point where
configuration is parsed: run every dataset, then aggregate the report with
status code 200 when no result errored and 207 otherwise. -/
def lambda_handler (c : Ctx) (datasets : List String) (w : World) : Report × World :=
  let rw := runDatasets c datasets w
  let results := rw.1
  let ok := results.filter isOkResult
  let errs := results.filter isErrResult
  ({ statusCode := if errs.length = 0 then 200 else 207,
     stored := (ok.filter (fun r => truthyBool r.stored)).length,
     unchanged := (ok.filter (fun r => r.reason == some "unchanged")).length,
     errors := errs.length,
     results := results }, rw.2)

/-- Modelled from the spec: a dataset's period granularity (spec §4.1 step
1(B) speaks of "date units matching the dataset's period granularity"); the
code does not represent granularity at all. -/
inductive Granularity where
  | daily
  | monthly
  | annual
deriving DecidableEq, Repr

/-- Modelled from the spec: "a computed start date = now − 2×N (in date
units matching the dataset's period granularity)" — subtract `2 * n` days,
months or years according to the granularity. -/
def specWindowedStart (g : Granularity) (now : Date) (n : Nat) : Date :=
  match g with
  | .daily => civilFromDays (daysFromCivil now - 2 * n)
  | .monthly =>
    let tot := now.year * 12 + (now.month - 1) - 2 * n
    ⟨tot / 12, tot % 12 + 1, now.day⟩
  | .annual => ⟨now.year - 2 * n, now.month, now.day⟩

/-- Modelled from the spec: the windowed fallback URL of §4.1 step 1(B),
identical to the code's URL template but with the granularity-aware start
date. -/
def specWindowedUrl (g : Granularity) (dataset_id key_path : String) (last_n_obs : Nat)
    (fmt : String) (now : Date) : String :=
  let base := "https://stats.oecd.org/sdmx-json/data/" ++ dataset_id ++ "/" ++ key_path
  let params_common := "detail=DataOnly&dimensionAtObservation=AllDimensions"
  let params_common :=
    if fmt = "csv" then params_common ++ "&contentType=csv&separator=comma"
    else params_common ++ "&contentType=json"
  base ++ "?" ++ params_common ++ "&startPeriod=" ++
    isoDate (specWindowedStart g now last_n_obs)

/-- Fixture: a 40-byte body, over the 32-byte plausibility threshold. -/
def c5blob : Bytes := List.replicate 40 65

/-- Fixture: a network where the incremental URL of dataset `X` 404s and
its windowed URL succeeds. -/
def c5net : String → Nat → HttpResult := fun url _ =>
  if url = (build_oecd_urls "X" "all" 1 "json" ⟨0, 0, 0, 0⟩).getD 1 "" then
    .success c5blob
  else
    .httpError 404 "NOT FOUND"

/-- Fixture: a 10-byte body, under the 32-byte plausibility threshold. -/
def c6short : Bytes := List.replicate 10 65

/-- Fixture: a network answering the incremental URL with a short body and
the windowed URL with a plausible one. -/
def c6netB : String → Nat → HttpResult := fun url _ =>
  if url = (build_oecd_urls "X" "all" 1 "json" ⟨0, 0, 0, 0⟩).getD 1 "" then
    .success c5blob
  else
    .success c6short

/-- Fixture: a network answering the incremental URL with a short body and
the windowed URL with a 404. -/
def c6netC : String → Nat → HttpResult := fun url _ =>
  if url = (build_oecd_urls "X" "all" 1 "json" ⟨0, 0, 0, 0⟩).getD 1 "" then
    .httpError 404 "NOT FOUND"
  else
    .success c6short

/-- Fixture: a second 40-byte body, distinct from `c5blob`. -/
def c8blob2 : Bytes := List.replicate 40 66

/-- Whether the configuration enables the dedupe ledger: a table name is
present and truthy (Python `if ddb_table_name:`). -/
def ledgerEnabled (c : Ctx) : Bool :=
  match c.ddb_table with
  | some t => t != ""
  | none => false

/-- Fixture: a baseline invocation configuration — ledger disabled, gzip
off, json format, every S3 write succeeding, every fetch answering the
40-byte body on the first attempt. -/
def ctxBase : Ctx :=
  { gz := fun b => b, net := fun _ _ => .success c5blob, s3ok := fun _ => true,
    now := ⟨20738, 12, 0, 0⟩, s3_bucket := "bkt", s3_prefix := "oecd/raw",
    fmt := "json", gzip_output := false, last_n_obs := 1, ddb_table := none,
    keys_map := [] }

/-- Fixture: a network where both URLs of dataset `B` always answer 500 and
every other URL succeeds. -/
def netPartialFail : String → Nat → HttpResult := fun url _ =>
  if url = (build_oecd_urls "B" "all" 1 "json" ⟨20738, 12, 0, 0⟩).getD 0 "" ∨
      url = (build_oecd_urls "B" "all" 1 "json" ⟨20738, 12, 0, 0⟩).getD 1 "" then
    .httpError 500 "ISE"
  else
    .success c5blob

/-- Fixture: the baseline configuration with dataset `B` failing. -/
def ctxPartialFail : Ctx := { ctxBase with net := netPartialFail }

/-- Fixture: the baseline configuration with every fetch failing. -/
def ctxTotalFail : Ctx := { ctxBase with net := fun _ _ => .httpError 500 "ISE" }

/-- Fixture: the baseline configuration with the dedupe ledger enabled. -/
def ctxLedger : Ctx := { ctxBase with ddb_table := some "tbl" }

/-- Sanity anchor for the hash model: the FIPS 180 test vector for "abc". -/
theorem sha256_abc :
    sha256 [97, 98, 99] =
      "ba7816bf8f01cfea414140de5dae2223b00361a396177a9cb410ff61f20015ad" := by decide

/-- Sanity anchor for the calendar model: day 20738 is 2026-10-12 and the
two conversions invert there. -/
theorem civilFromDays_20738 :
    civilFromDays 20738 = ⟨2026, 10, 12⟩ ∧ daysFromCivil ⟨2026, 10, 12⟩ = 20738 := by decide

/-- C2 (counterexample): on 2026-10-12 with observation window N = 60, the
windowed URL the code builds differs from the spec's URL for an annual
dataset and from the spec's URL for a monthly one — the code's start date is
not expressed in date units matching the dataset's period granularity. -/
theorem C2_counterexample :
    ((build_oecd_urls "MEI" "all" 60 "json" ⟨20738, 0, 0, 0⟩).getD 1 "" ≠
        specWindowedUrl .annual "MEI" "all" 60 "json" ⟨2026, 10, 12⟩) ∧
    ((build_oecd_urls "MEI" "all" 60 "json" ⟨20738, 0, 0, 0⟩).getD 1 "" ≠
        specWindowedUrl .monthly "MEI" "all" 60 "json" ⟨2026, 10, 12⟩) := by decide

/-- C2 (amended): for every dataset request, the windowed fallback URL
requests all observations since a start date of now minus 2×N calendar
days — the daily-granularity form — whatever the dataset's actual period
granularity. -/
theorem C2_windowed_start_days (dataset_id key_path : String) (last_n_obs : Nat)
    (fmt : String) (dt : Date) (hour minute second : Nat) :
    (build_oecd_urls dataset_id key_path last_n_obs fmt
        ⟨daysFromCivil dt, hour, minute, second⟩).getD 1 "" =
      specWindowedUrl .daily dataset_id key_path last_n_obs fmt dt := by
  simp [build_oecd_urls, specWindowedUrl, specWindowedStart, Nat.mul_comm]

/-- The retry loop makes at most `tries + rem` GET attempts. -/
theorem httpGetAux_attempts_le (net : Nat → HttpResult) (rem : Nat) :
    ∀ attempt lastErr sleeps tries,
      (httpGetAux net attempt rem lastErr sleeps tries).attempts ≤ tries + rem := by
  induction rem with
  | zero =>
    intro attempt lastErr sleeps tries
    simp [httpGetAux]
  | succ n ih =>
    intro attempt lastErr sleeps tries
    simp only [httpGetAux]
    cases hnet : net attempt with
    | success body =>
      show tries + 1 ≤ tries + (n + 1)
      omega
    | httpError code reason =>
      show (if code ∈ transientCodes then
              httpGetAux net (attempt + 1) n (some (.http code reason))
                (2 * attempt :: sleeps) (tries + 1)
            else ⟨.error (.http code reason), sleeps.reverse, tries + 1⟩).attempts ≤
          tries + (n + 1)
      by_cases hc : code ∈ transientCodes
      · rw [if_pos hc]
        exact le_trans
          (ih (attempt + 1) (some (.http code reason)) (2 * attempt :: sleeps) (tries + 1))
          (by omega)
      · rw [if_neg hc]
        show tries + 1 ≤ tries + (n + 1)
        omega
    | ioError t m =>
      exact le_trans
        (ih (attempt + 1) (some (.io t m)) (2 * attempt :: sleeps) (tries + 1))
        (by omega)

/-- A non-transient HTTP error on the first attempt ends `http_get` at once:
one attempt, no sleep, that error raised. -/
theorem http_get_nontransient (net : Nat → HttpResult) (code : Nat) (reason : String)
    (hc : code ∉ transientCodes) (h1 : net 1 = .httpError code reason) :
    http_get net 3 = ⟨.error (.http code reason), [], 1⟩ := by
  simp [http_get, httpGetAux, h1, if_neg hc]

/-- A success on the first attempt ends `http_get` at once with the body. -/
theorem http_get_success1 (net : Nat → HttpResult) (body : Bytes)
    (h1 : net 1 = .success body) : http_get net 3 = ⟨.ok body, [], 1⟩ := by
  simp [http_get, httpGetAux, h1]

/-- C5: the GET for a candidate URL makes at most R = 3 attempts; a
non-transient HTTP error (404 here, and any code outside 429/500/502/503/504)
aborts the retry loop at once with no sleep; three transient failures consume
all three attempts with linearly increasing backoff delays 2·1, 2·2, 2·3 and
raise the last error; a first-attempt success retries nothing; and a 404 on
the incremental URL makes `fetch_oecd` attempt the windowed URL, succeeding
from it. -/
theorem C5_retry_policy :
    (∀ net retries, (http_get net retries).attempts ≤ retries) ∧
    (∀ net code reason, code ∉ transientCodes → net 1 = .httpError code reason →
        http_get net 3 = ⟨.error (.http code reason), [], 1⟩) ∧
    (∀ net c1 c2 c3 r1 r2 r3,
        c1 ∈ transientCodes → c2 ∈ transientCodes → c3 ∈ transientCodes →
        net 1 = .httpError c1 r1 → net 2 = .httpError c2 r2 → net 3 = .httpError c3 r3 →
        http_get net 3 = ⟨.error (.http c3 r3), [2 * 1, 2 * 2, 2 * 3], 3⟩) ∧
    (∀ net body, net 1 = .success body → http_get net 3 = ⟨.ok body, [], 1⟩) ∧
    (∀ net dataset_id key_path last_n_obs fmt now uA uB reason blob,
        build_oecd_urls dataset_id key_path last_n_obs fmt now = [uA, uB] →
        net uA 1 = .httpError 404 reason →
        net uB 1 = .success blob → 32 ≤ blob.length →
        fetch_oecd net dataset_id key_path last_n_obs fmt now = .ok (blob, uB)) := by
  refine ⟨?_, ?_, ?_, ?_, ?_⟩
  · intro net retries
    simpa using httpGetAux_attempts_le net retries 1 none [] 0
  · intro net code reason hc hnet
    exact http_get_nontransient net code reason hc hnet
  · intro net c1 c2 c3 r1 r2 r3 h1 h2 h3 hn1 hn2 hn3
    simp [http_get, httpGetAux, hn1, hn2, hn3, if_pos h1, if_pos h2, if_pos h3]
  · intro net body hnet
    exact http_get_success1 net body hnet
  · intro net dataset_id key_path last_n_obs fmt now uA uB reason blob hurls hA hB hlen
    have hnot : ¬ (blob = [] ∨ blob.length < 32) := by
      rintro (rfl | h)
      · simp at hlen
      · omega
    have hgA := http_get_nontransient (net uA) 404 reason (by decide) hA
    have hgB := http_get_success1 (net uB) blob hB
    unfold fetch_oecd
    rw [hurls]
    simp only [fetchAux, hgA, hgB]
    simp [hnot]

/-- C5 (witness): the retry-policy properties evaluated on concrete
networks: a permanent 500 keeps attempts at 7 or below; a 404 aborts after
one attempt; three 500s sleep 2, 4, 6 seconds; a first success makes one
attempt; a 404 on dataset X's incremental URL falls back to its windowed
URL. -/
theorem C5_witness :
    (http_get (fun _ => .httpError 500 "ISE") 7).attempts ≤ 7 ∧
    http_get (fun _ => .httpError 404 "NF") 3 = ⟨.error (.http 404 "NF"), [], 1⟩ ∧
    http_get (fun _ => .httpError 500 "ISE") 3 =
      ⟨.error (.http 500 "ISE"), [2 * 1, 2 * 2, 2 * 3], 3⟩ ∧
    http_get (fun _ => .success c5blob) 3 = ⟨.ok c5blob, [], 1⟩ ∧
    fetch_oecd c5net "X" "all" 1 "json" ⟨0, 0, 0, 0⟩ =
      .ok (c5blob, (build_oecd_urls "X" "all" 1 "json" ⟨0, 0, 0, 0⟩).getD 1 "") :=
  ⟨C5_retry_policy.1 _ 7,
    C5_retry_policy.2.1 _ 404 "NF" (by decide) rfl,
    C5_retry_policy.2.2.1 _ 500 500 500 "ISE" "ISE" "ISE"
      (by decide) (by decide) (by decide) rfl rfl rfl,
    C5_retry_policy.2.2.2.1 _ c5blob rfl,
    C5_retry_policy.2.2.2.2 c5net "X" "all" 1 "json" ⟨0, 0, 0, 0⟩
      ((build_oecd_urls "X" "all" 1 "json" ⟨0, 0, 0, 0⟩).getD 0 "")
      ((build_oecd_urls "X" "all" 1 "json" ⟨0, 0, 0, 0⟩).getD 1 "")
      "NOT FOUND" c5blob (by decide) (by decide) (by decide) (by decide)⟩

/-- C6: the fetcher accepts the first response whose body is non-empty and
at least the 32-byte plausibility threshold (so the incremental URL when it
answers plausibly); a response under the threshold counts as a failed
candidate and the next URL is tried; and when every candidate fails, the
raised error is the exhaustion message carrying the per-URL error summaries
in order. -/
theorem C6_sanity_and_exhaustion :
    (∀ net dataset_id key_path last_n_obs fmt now uA uB blob,
        build_oecd_urls dataset_id key_path last_n_obs fmt now = [uA, uB] →
        net uA 1 = .success blob → 32 ≤ blob.length →
        fetch_oecd net dataset_id key_path last_n_obs fmt now = .ok (blob, uA)) ∧
    (∀ net dataset_id key_path last_n_obs fmt now uA uB blobA blob,
        build_oecd_urls dataset_id key_path last_n_obs fmt now = [uA, uB] →
        net uA 1 = .success blobA → blobA.length < 32 →
        net uB 1 = .success blob → 32 ≤ blob.length →
        fetch_oecd net dataset_id key_path last_n_obs fmt now = .ok (blob, uB)) ∧
    (∀ net dataset_id key_path last_n_obs fmt now uA uB blobA code reason,
        build_oecd_urls dataset_id key_path last_n_obs fmt now = [uA, uB] →
        net uA 1 = .success blobA → blobA.length < 32 →
        net uB 1 = .httpError code reason → code ∉ transientCodes →
        fetch_oecd net dataset_id key_path last_n_obs fmt now =
          .error (fetchExhaustedMsg dataset_id key_path
            ["Empty/short response from " ++ uA.take 120,
             errString (.http code reason)])) := by
  refine ⟨?_, ?_, ?_⟩
  · intro net dataset_id key_path last_n_obs fmt now uA uB blob hurls hA hlen
    have hnot : ¬ (blob = [] ∨ blob.length < 32) := by
      rintro (rfl | h)
      · simp at hlen
      · omega
    have hgA := http_get_success1 (net uA) blob hA
    unfold fetch_oecd
    rw [hurls]
    simp only [fetchAux, hgA]
    simp [hnot]
  · intro net dataset_id key_path last_n_obs fmt now uA uB blobA blob hurls hA hshort hB hlen
    have hnot : ¬ (blob = [] ∨ blob.length < 32) := by
      rintro (rfl | h)
      · simp at hlen
      · omega
    have hgA := http_get_success1 (net uA) blobA hA
    have hgB := http_get_success1 (net uB) blob hB
    unfold fetch_oecd
    rw [hurls]
    simp only [fetchAux, hgA, hgB]
    rw [if_pos (Or.inr hshort)]
    simp [hnot]
  · intro net dataset_id key_path last_n_obs fmt now uA uB blobA code reason
      hurls hA hshort hB hcode
    have hgA := http_get_success1 (net uA) blobA hA
    have hgB := http_get_nontransient (net uB) code reason hcode hB
    unfold fetch_oecd
    rw [hurls]
    simp only [fetchAux, hgA, hgB]
    rw [if_pos (Or.inr hshort)]
    rfl

/-- C6 (witness): the acceptance and exhaustion behaviour evaluated on
concrete networks for dataset X: a plausible first answer is taken from the
incremental URL; a short first answer falls through to the windowed URL; a
short answer then a 404 exhausts the fetch with both per-URL summaries. -/
theorem C6_witness :
    fetch_oecd (fun _ _ => .success c5blob) "X" "all" 1 "json" ⟨0, 0, 0, 0⟩ =
      .ok (c5blob, (build_oecd_urls "X" "all" 1 "json" ⟨0, 0, 0, 0⟩).getD 0 "") ∧
    fetch_oecd c6netB "X" "all" 1 "json" ⟨0, 0, 0, 0⟩ =
      .ok (c5blob, (build_oecd_urls "X" "all" 1 "json" ⟨0, 0, 0, 0⟩).getD 1 "") ∧
    fetch_oecd c6netC "X" "all" 1 "json" ⟨0, 0, 0, 0⟩ =
      .error (fetchExhaustedMsg "X" "all"
        ["Empty/short response from " ++
          ((build_oecd_urls "X" "all" 1 "json" ⟨0, 0, 0, 0⟩).getD 0 "").take 120,
         errString (.http 404 "NOT FOUND")]) :=
  ⟨C6_sanity_and_exhaustion.1 _ "X" "all" 1 "json" ⟨0, 0, 0, 0⟩
      ((build_oecd_urls "X" "all" 1 "json" ⟨0, 0, 0, 0⟩).getD 0 "")
      ((build_oecd_urls "X" "all" 1 "json" ⟨0, 0, 0, 0⟩).getD 1 "")
      c5blob (by decide) rfl (by decide),
   C6_sanity_and_exhaustion.2.1 c6netB "X" "all" 1 "json" ⟨0, 0, 0, 0⟩
      ((build_oecd_urls "X" "all" 1 "json" ⟨0, 0, 0, 0⟩).getD 0 "")
      ((build_oecd_urls "X" "all" 1 "json" ⟨0, 0, 0, 0⟩).getD 1 "")
      c6short c5blob (by decide) (by decide) (by decide) (by decide) (by decide),
   C6_sanity_and_exhaustion.2.2 c6netC "X" "all" 1 "json" ⟨0, 0, 0, 0⟩
      ((build_oecd_urls "X" "all" 1 "json" ⟨0, 0, 0, 0⟩).getD 0 "")
      ((build_oecd_urls "X" "all" 1 "json" ⟨0, 0, 0, 0⟩).getD 1 "")
      c6short 404 "NOT FOUND" (by decide) (by decide) (by decide) (by decide) (by decide)⟩

/-- C1 (code bug exhibit): with the ledger enabled and holding the digest of
byte `[1]` for dataset `DS`, a novel payload `[2]` whose S3 archive write
fails leaves an error result, an empty archive — and a ledger entry already
overwritten with the new digest.  The ledger record is written before the
archive write (handler.py puts the DynamoDB item at lines 106-111 and the S3
object only at lines 125-132), so on archive failure the ledger entry is not
unchanged and its `last_hash` no longer matches any archived payload. -/
theorem C1_ledger_written_before_archive :
    put_if_new (fun b => b) false "DS" "u1" [2] "bkt" "pfx" "json" false
        (some "tbl") ⟨0, 0, 0, 0⟩ ⟨[("DS", ⟨sha256 [1], "u0", "t0"⟩)], []⟩ =
      (.error s3FailureMsg,
       ⟨[("DS", ⟨sha256 [2], "u1", tsStr ⟨0, 0, 0, 0⟩⟩)], []⟩) ∧
    sha256 [2] ≠ sha256 [1] := by decide

/-- With the ledger enabled, a matching entry digest makes `put_if_new`
return `unchanged` with the world untouched, whatever `s3ok`. -/
theorem put_if_new_unchanged_of_match (gz : Bytes → Bytes) (s3ok : Bool)
    (dataset_id url_used : String) (raw : Bytes) (s3_bucket s3_prefix fmt : String)
    (gzip_output : Bool) (tbl : String) (htbl : tbl ≠ "") (now : Instant) (w : World)
    (e : LedgerEntry) (he : ddbGet w.ledger dataset_id = some e)
    (heq : e.last_hash = sha256 raw) :
    put_if_new gz s3ok dataset_id url_used raw s3_bucket s3_prefix fmt gzip_output
        (some tbl) now w =
      (.ok { stored := some false, reason := some "unchanged",
             hash := some (sha256 raw), url := some url_used }, w) := by
  have henb : (tbl != "") = true := bne_iff_ne.mpr htbl
  simp [put_if_new, henb, he, heq]

/-- With the ledger enabled and no matching entry, a successful S3 write
makes `put_if_new` return `stored`, append one archive object, and
overwrite the ledger entry. -/
theorem put_if_new_stored_of_novel (gz : Bytes → Bytes)
    (dataset_id url_used : String) (raw : Bytes) (s3_bucket s3_prefix fmt : String)
    (gzip_output : Bool) (tbl : String) (htbl : tbl ≠ "") (now : Instant) (w : World)
    (hne : ∀ e, ddbGet w.ledger dataset_id = some e → e.last_hash ≠ sha256 raw) :
    put_if_new gz true dataset_id url_used raw s3_bucket s3_prefix fmt gzip_output
        (some tbl) now w =
      (.ok { stored := some true,
             s3_key := some (archiveKey s3_prefix dataset_id now (sha256 raw)
               (if fmt = "csv" then "csv" else "json")),
             hash := some (sha256 raw), url := some url_used },
       { ledger := ddbPut w.ledger dataset_id ⟨sha256 raw, url_used, tsStr now⟩,
         s3 := w.s3 ++
           [⟨s3_bucket,
             archiveKey s3_prefix dataset_id now (sha256 raw)
               (if fmt = "csv" then "csv" else "json"),
             (maybe_compress gz raw gzip_output).1,
             (if fmt = "csv" then "text/csv" else "application/json"),
             url_used, sha256 raw, (maybe_compress gz raw gzip_output).2⟩] }) := by
  have henb : (tbl != "") = true := bne_iff_ne.mpr htbl
  cases hget : ddbGet w.ledger dataset_id with
  | none => simp [put_if_new, henb, hget]
  | some e => simp [put_if_new, henb, hget, hne e hget]

/-- With the ledger disabled, a successful S3 write makes `put_if_new`
return `stored` and append one archive object, leaving the ledger alone. -/
theorem put_if_new_stored_of_disabled (gz : Bytes → Bytes)
    (dataset_id url_used : String) (raw : Bytes) (s3_bucket s3_prefix fmt : String)
    (gzip_output : Bool) (ddb_table_name : Option String) (now : Instant) (w : World)
    (hoff : ddb_table_name = none ∨ ddb_table_name = some "") :
    put_if_new gz true dataset_id url_used raw s3_bucket s3_prefix fmt gzip_output
        ddb_table_name now w =
      (.ok { stored := some true,
             s3_key := some (archiveKey s3_prefix dataset_id now (sha256 raw)
               (if fmt = "csv" then "csv" else "json")),
             hash := some (sha256 raw), url := some url_used },
       { ledger := w.ledger,
         s3 := w.s3 ++
           [⟨s3_bucket,
             archiveKey s3_prefix dataset_id now (sha256 raw)
               (if fmt = "csv" then "csv" else "json"),
             (maybe_compress gz raw gzip_output).1,
             (if fmt = "csv" then "text/csv" else "application/json"),
             url_used, sha256 raw, (maybe_compress gz raw gzip_output).2⟩] }) := by
  rcases hoff with rfl | rfl
  · simp [put_if_new]
  · simp [put_if_new]

/-- C4: with the ledger enabled, if the stored entry's digest equals the
fetched payload's digest then `put_if_new` returns the `unchanged` result
and the world is completely untouched — no archive write, no ledger write,
no timestamp refresh; and if no entry matches (absent or a different
digest), it returns the `stored` result, appends exactly one archive object,
and overwrites the ledger entry with the new digest, URL and timestamp. -/
theorem C4_novelty_detection (gz : Bytes → Bytes) (dataset_id url_used : String)
    (raw : Bytes) (s3_bucket s3_prefix fmt : String) (gzip_output : Bool)
    (tbl : String) (htbl : tbl ≠ "") (now : Instant) (w : World) :
    (∀ e, ddbGet w.ledger dataset_id = some e → e.last_hash = sha256 raw →
        put_if_new gz true dataset_id url_used raw s3_bucket s3_prefix fmt gzip_output
            (some tbl) now w =
          (.ok { stored := some false, reason := some "unchanged",
                 hash := some (sha256 raw), url := some url_used }, w)) ∧
    ((∀ e, ddbGet w.ledger dataset_id = some e → e.last_hash ≠ sha256 raw) →
        put_if_new gz true dataset_id url_used raw s3_bucket s3_prefix fmt gzip_output
            (some tbl) now w =
          (.ok { stored := some true,
                 s3_key := some (archiveKey s3_prefix dataset_id now (sha256 raw)
                   (if fmt = "csv" then "csv" else "json")),
                 hash := some (sha256 raw), url := some url_used },
           { ledger := ddbPut w.ledger dataset_id ⟨sha256 raw, url_used, tsStr now⟩,
             s3 := w.s3 ++
               [⟨s3_bucket,
                 archiveKey s3_prefix dataset_id now (sha256 raw)
                   (if fmt = "csv" then "csv" else "json"),
                 (maybe_compress gz raw gzip_output).1,
                 (if fmt = "csv" then "text/csv" else "application/json"),
                 url_used, sha256 raw, (maybe_compress gz raw gzip_output).2⟩] })) := by
  have henb : (tbl != "") = true := bne_iff_ne.mpr htbl
  constructor
  · intro e he heq
    simp [put_if_new, henb, he, heq]
  · intro hne
    cases hget : ddbGet w.ledger dataset_id with
    | none => simp [put_if_new, henb, hget]
    | some e => simp [put_if_new, henb, hget, hne e hget]

/-- C4 (witness): evaluated for dataset `DS`: an entry holding the digest of
the 40-byte body leaves the world untouched and reports `unchanged`; an
empty table archives the payload and records its digest. -/
theorem C4_witness :
    (put_if_new (fun b => b) true "DS" "u1" c5blob "bkt" "pfx" "json" false
        (some "tbl") ⟨0, 0, 0, 0⟩ ⟨[("DS", ⟨sha256 c5blob, "u0", "t0"⟩)], []⟩ =
      (.ok { stored := some false, reason := some "unchanged",
             hash := some (sha256 c5blob), url := some "u1" },
       ⟨[("DS", ⟨sha256 c5blob, "u0", "t0"⟩)], []⟩)) ∧
    (put_if_new (fun b => b) true "DS" "u1" c5blob "bkt" "pfx" "json" false
        (some "tbl") ⟨0, 0, 0, 0⟩ ⟨[], []⟩ =
      (.ok { stored := some true,
             s3_key := some (archiveKey "pfx" "DS" ⟨0, 0, 0, 0⟩ (sha256 c5blob) "json"),
             hash := some (sha256 c5blob), url := some "u1" },
       { ledger := ddbPut [] "DS" ⟨sha256 c5blob, "u1", tsStr ⟨0, 0, 0, 0⟩⟩,
         s3 := [] ++
           [⟨"bkt", archiveKey "pfx" "DS" ⟨0, 0, 0, 0⟩ (sha256 c5blob) "json",
             (maybe_compress (fun b => b) c5blob false).1, "application/json",
             "u1", sha256 c5blob, (maybe_compress (fun b => b) c5blob false).2⟩] })) := by
  constructor
  · exact (C4_novelty_detection (fun b => b) "DS" "u1" c5blob "bkt" "pfx" "json" false
      "tbl" (by decide) ⟨0, 0, 0, 0⟩ ⟨[("DS", ⟨sha256 c5blob, "u0", "t0"⟩)], []⟩).1
      ⟨sha256 c5blob, "u0", "t0"⟩ (by decide) rfl
  · have h := (C4_novelty_detection (fun b => b) "DS" "u1" c5blob "bkt" "pfx" "json" false
      "tbl" (by decide) ⟨0, 0, 0, 0⟩ ⟨[], []⟩).2 (by intro e he; simp [ddbGet] at he)
    simpa using h

/-- C9: with the ledger disabled (no table name, or the falsy empty string),
`put_if_new` archives every payload and reports it stored, whatever the
ledger holds — even when an entry for the dataset already holds this very
digest — and the ledger is neither consulted in the result nor written. -/
theorem C9_disabled_always_stores (gz : Bytes → Bytes) (dataset_id url_used : String)
    (raw : Bytes) (s3_bucket s3_prefix fmt : String) (gzip_output : Bool)
    (ddb_table_name : Option String) (now : Instant) (w : World)
    (hoff : ddb_table_name = none ∨ ddb_table_name = some "") :
    put_if_new gz true dataset_id url_used raw s3_bucket s3_prefix fmt gzip_output
        ddb_table_name now w =
      (.ok { stored := some true,
             s3_key := some (archiveKey s3_prefix dataset_id now (sha256 raw)
               (if fmt = "csv" then "csv" else "json")),
             hash := some (sha256 raw), url := some url_used },
       { ledger := w.ledger,
         s3 := w.s3 ++
           [⟨s3_bucket,
             archiveKey s3_prefix dataset_id now (sha256 raw)
               (if fmt = "csv" then "csv" else "json"),
             (maybe_compress gz raw gzip_output).1,
             (if fmt = "csv" then "text/csv" else "application/json"),
             url_used, sha256 raw, (maybe_compress gz raw gzip_output).2⟩] }) := by
  rcases hoff with rfl | rfl
  · simp [put_if_new]
  · simp [put_if_new]

/-- C9 (witness): with no table configured, a payload whose digest is
already both in the ledger shape and archived once is archived again and
reported stored, with the ledger items untouched. -/
theorem C9_witness :
    put_if_new (fun b => b) true "DS" "u1" c5blob "bkt" "pfx" "json" false
        none ⟨0, 0, 0, 0⟩ ⟨[("DS", ⟨sha256 c5blob, "u0", "t0"⟩)], []⟩ =
      (.ok { stored := some true,
             s3_key := some (archiveKey "pfx" "DS" ⟨0, 0, 0, 0⟩ (sha256 c5blob) "json"),
             hash := some (sha256 c5blob), url := some "u1" },
       { ledger := [("DS", ⟨sha256 c5blob, "u0", "t0"⟩)],
         s3 := [] ++
           [⟨"bkt", archiveKey "pfx" "DS" ⟨0, 0, 0, 0⟩ (sha256 c5blob) "json",
             (maybe_compress (fun b => b) c5blob false).1, "application/json",
             "u1", sha256 c5blob, (maybe_compress (fun b => b) c5blob false).2⟩] }) := by
  have h := C9_disabled_always_stores (fun b => b) "DS" "u1" c5blob "bkt" "pfx" "json"
    false none ⟨0, 0, 0, 0⟩ ⟨[("DS", ⟨sha256 c5blob, "u0", "t0"⟩)], []⟩ (Or.inl rfl)
  simpa using h

/-- Keys built for the same dataset, prefix and instant differ whenever the
12-character digest prefixes differ. -/
theorem archiveKey_ne_of_take12_ne ( s3_prefix dataset_id : String) (now : Instant)
    (h1 h2 ext : String) (hne : h1.take 12 ≠ h2.take 12) :
    archiveKey s3_prefix dataset_id now h1 ext ≠
      archiveKey s3_prefix dataset_id now h2 ext := by
  intro he
  apply hne
  unfold archiveKey at he
  have hd := congrArg String.data he
  simp only [String.data_append] at hd
  exact String.ext
    (List.append_cancel_left (List.append_cancel_right (List.append_cancel_right hd)))

/-- C8: whenever `put_if_new` reports a payload stored, the result's key and
the key of the single S3 object it appends both equal
`{prefix}/{dataset_id}/{YYYYMMDD}/{dataset_id}_{YYYYMMDDTHHMMSSZ}_{digest[:12]}.{ext}`
built from the archive-time instant, with ext `csv` exactly for the csv
format and `json` otherwise; and two payloads archived at the same instant
whose digests differ in their first 12 characters receive distinct keys. -/
theorem C8_key_scheme (gz : Bytes → Bytes) (dataset_id url_used : String) (raw : Bytes)
    (s3_bucket s3_prefix fmt : String) (gzip_output : Bool) (ddb_table_name : Option String)
    (now : Instant) (w : World) :
    (∀ r w2, put_if_new gz true dataset_id url_used raw s3_bucket s3_prefix fmt gzip_output
          ddb_table_name now w = (.ok r, w2) → r.stored = some true →
        r.s3_key = some (archiveKey s3_prefix dataset_id now (sha256 raw)
            (if fmt = "csv" then "csv" else "json")) ∧
        ∃ p : S3Put, w2.s3 = w.s3 ++ [p] ∧
          p.key = archiveKey s3_prefix dataset_id now (sha256 raw)
            (if fmt = "csv" then "csv" else "json") ∧
          p.metaSha256 = sha256 raw) ∧
    (∀ raw1 raw2 ext, (sha256 raw1).take 12 ≠ (sha256 raw2).take 12 →
        archiveKey s3_prefix dataset_id now (sha256 raw1) ext ≠
          archiveKey s3_prefix dataset_id now (sha256 raw2) ext) := by
  constructor
  · intro r w2 h hstored
    cases hddb : ddb_table_name with
    | none =>
      rw [hddb, put_if_new_stored_of_disabled gz dataset_id url_used raw s3_bucket
        s3_prefix fmt gzip_output none now w (Or.inl rfl)] at h
      injection h with h1 h2
      injection h1 with h1
      subst h1 h2
      exact ⟨rfl, _, rfl, rfl, rfl⟩
    | some t =>
      by_cases ht : t = ""
      · subst ht
        rw [hddb, put_if_new_stored_of_disabled gz dataset_id url_used raw s3_bucket
          s3_prefix fmt gzip_output (some "") now w (Or.inr rfl)] at h
        injection h with h1 h2
        injection h1 with h1
        subst h1 h2
        exact ⟨rfl, _, rfl, rfl, rfl⟩
      · cases hget : ddbGet w.ledger dataset_id with
        | none =>
          rw [hddb, put_if_new_stored_of_novel gz dataset_id url_used raw s3_bucket
            s3_prefix fmt gzip_output t ht now w
            (fun e hc => absurd (hget ▸ hc) (by simp))] at h
          injection h with h1 h2
          injection h1 with h1
          subst h1 h2
          exact ⟨rfl, _, rfl, rfl, rfl⟩
        | some e =>
          by_cases heq : e.last_hash = sha256 raw
          · rw [hddb, put_if_new_unchanged_of_match gz true dataset_id url_used raw
              s3_bucket s3_prefix fmt gzip_output t ht now w e hget heq] at h
            injection h with h1 h2
            injection h1 with h1
            subst h1 h2
            simp at hstored
          · rw [hddb, put_if_new_stored_of_novel gz dataset_id url_used raw s3_bucket
              s3_prefix fmt gzip_output t ht now w
              (fun e2 hc => by
                rw [hget] at hc
                injection hc with hc
                subst hc
                exact heq)] at h
            injection h with h1 h2
            injection h1 with h1
            subst h1 h2
            exact ⟨rfl, _, rfl, rfl, rfl⟩
  · intro raw1 raw2 ext hne
    exact archiveKey_ne_of_take12_ne s3_prefix dataset_id now _ _ ext hne

set_option maxRecDepth 8000 in
/-- C8 (witness): two concrete distinct 40-byte payloads hashed at the same
instant have digests differing in their first 12 characters and hence
distinct archive keys; and a concrete stored run carries exactly the
template key. -/
theorem C8_witness :
    ((put_if_new (fun b => b) true "DS" "u1" c5blob "bkt" "pfx" "json" false none
          ⟨0, 0, 0, 0⟩ ⟨[], []⟩).1.toOption.getD {} |>.s3_key) =
      some (archiveKey "pfx" "DS" ⟨0, 0, 0, 0⟩ (sha256 c5blob) "json") ∧
    archiveKey "pfx" "DS" ⟨0, 0, 0, 0⟩ (sha256 c5blob) "json" ≠
      archiveKey "pfx" "DS" ⟨0, 0, 0, 0⟩ (sha256 c8blob2) "json" := by
  constructor
  · have h := ((C8_key_scheme (fun b => b) "DS" "u1" c5blob "bkt" "pfx" "json" false none
      ⟨0, 0, 0, 0⟩ ⟨[], []⟩).1
      ((put_if_new (fun b => b) true "DS" "u1" c5blob "bkt" "pfx" "json" false none
          ⟨0, 0, 0, 0⟩ ⟨[], []⟩).1.toOption.getD {})
      (put_if_new (fun b => b) true "DS" "u1" c5blob "bkt" "pfx" "json" false none
          ⟨0, 0, 0, 0⟩ ⟨[], []⟩).2 (by decide) (by decide)).1
    simpa using h
  · exact (C8_key_scheme (fun b => b) "DS" "u1" c5blob "bkt" "pfx" "json" false none
      ⟨0, 0, 0, 0⟩ ⟨[], []⟩).2 c5blob c8blob2 "json" (by decide)

/-- `put_item` then `get_item` at the same key yields the written item. -/
theorem ddbGet_ddbPut_self (tbl : List (String × LedgerEntry)) (k : String) (v : LedgerEntry) :
    ddbGet (ddbPut tbl k v) k = some v := by
  induction tbl with
  | nil => simp [ddbGet, ddbPut]
  | cons kv rest ih =>
    by_cases hk : kv.1 == k
    · simp [ddbGet, ddbPut, hk]
    · simp only [ddbPut, hk]
      simpa [ddbGet, hk] using ih

/-- `put_item` does not disturb other keys. -/
theorem ddbGet_ddbPut_ne (tbl : List (String × LedgerEntry)) (k k2 : String)
    (v : LedgerEntry) (hne : k2 ≠ k) :
    ddbGet (ddbPut tbl k v) k2 = ddbGet tbl k2 := by
  induction tbl with
  | nil => simp [ddbGet, ddbPut, Ne.symm hne]
  | cons kv rest ih =>
    by_cases hk : kv.1 == k
    · have hkv : kv.1 = k := by simpa using hk
      simp [ddbGet, ddbPut, hk, hkv, Ne.symm hne]
    · simp only [ddbPut, hk]
      by_cases hk2 : kv.1 == k2
      · simp [ddbGet, hk2]
      · simpa [ddbGet, hk2] using ih

/-- Appending to a non-empty string stays non-empty. -/
theorem append_ne_empty_left (s t : String) (h : s ≠ "") : s ++ t ≠ "" := by
  intro he
  apply h
  have hd := congrArg String.data he
  rw [String.data_append] at hd
  exact String.ext (List.append_eq_nil.mp hd).1

/-- The fetch-exhaustion message is never the empty string. -/
theorem fetchExhaustedMsg_ne_empty (a b : String) (errs : List String) :
    fetchExhaustedMsg a b errs ≠ "" := by
  unfold fetchExhaustedMsg
  apply append_ne_empty_left
  apply append_ne_empty_left
  apply append_ne_empty_left
  apply append_ne_empty_left
  apply append_ne_empty_left
  decide

/-- Any error `fetch_oecd` raises carries a non-empty message. -/
theorem fetch_oecd_error_ne_empty (net : String → Nat → HttpResult)
    (dataset_id key_path : String) (last_n_obs : Nat) (fmt : String) (now : Instant)
    (e : String) (h : fetch_oecd net dataset_id key_path last_n_obs fmt now = .error e) :
    e ≠ "" := by
  unfold fetch_oecd at h
  split at h
  · cases h
  · injection h with h
    subst h
    exact fetchExhaustedMsg_ne_empty dataset_id key_path _

/-- With the ledger enabled and no matching entry, a failing S3 write makes
`put_if_new` raise after the ledger entry has already been overwritten. -/
theorem put_if_new_error_of_novel (gz : Bytes → Bytes)
    (dataset_id url_used : String) (raw : Bytes) (s3_bucket s3_prefix fmt : String)
    (gzip_output : Bool) (tbl : String) (htbl : tbl ≠ "") (now : Instant) (w : World)
    (hne : ∀ e, ddbGet w.ledger dataset_id = some e → e.last_hash ≠ sha256 raw) :
    put_if_new gz false dataset_id url_used raw s3_bucket s3_prefix fmt gzip_output
        (some tbl) now w =
      (.error s3FailureMsg,
       { w with ledger := ddbPut w.ledger dataset_id ⟨sha256 raw, url_used, tsStr now⟩ }) := by
  have henb : (tbl != "") = true := bne_iff_ne.mpr htbl
  cases hget : ddbGet w.ledger dataset_id with
  | none => simp [put_if_new, henb, hget]
  | some e => simp [put_if_new, henb, hget, hne e hget]

/-- With the ledger disabled, a failing S3 write makes `put_if_new` raise
with the world untouched. -/
theorem put_if_new_error_of_disabled (gz : Bytes → Bytes)
    (dataset_id url_used : String) (raw : Bytes) (s3_bucket s3_prefix fmt : String)
    (gzip_output : Bool) (ddb_table_name : Option String) (now : Instant) (w : World)
    (hoff : ddb_table_name = none ∨ ddb_table_name = some "") :
    put_if_new gz false dataset_id url_used raw s3_bucket s3_prefix fmt gzip_output
        ddb_table_name now w = (.error s3FailureMsg, w) := by
  rcases hoff with rfl | rfl
  · simp [put_if_new]
  · simp [put_if_new]

/-- Whatever happens inside `put_if_new`, the resulting ledger is either
untouched or holds the overwritten entry for this dataset. -/
theorem put_if_new_world_ledger (gz : Bytes → Bytes) (s3ok : Bool)
    (dataset_id url_used : String) (raw : Bytes) (s3_bucket s3_prefix fmt : String)
    (gzip_output : Bool) (ddb_table_name : Option String) (now : Instant) (w : World) :
    (put_if_new gz s3ok dataset_id url_used raw s3_bucket s3_prefix fmt gzip_output
        ddb_table_name now w).2.ledger = w.ledger ∨
    (put_if_new gz s3ok dataset_id url_used raw s3_bucket s3_prefix fmt gzip_output
        ddb_table_name now w).2.ledger =
      ddbPut w.ledger dataset_id ⟨sha256 raw, url_used, tsStr now⟩ := by
  simp only [put_if_new]
  repeat' split
  all_goals first | (left; rfl) | (right; rfl)

/-- With the ledger enabled, after `put_if_new` the entry for the dataset
always exists and holds the payload's digest (matched, overwritten, or
written before a failing archive call). -/
theorem put_if_new_ledger_post (gz : Bytes → Bytes) (s3ok : Bool)
    (dataset_id url_used : String) (raw : Bytes) (s3_bucket s3_prefix fmt : String)
    (gzip_output : Bool) (tbl : String) (htbl : tbl ≠ "") (now : Instant) (w : World) :
    ∃ e, ddbGet (put_if_new gz s3ok dataset_id url_used raw s3_bucket s3_prefix fmt
        gzip_output (some tbl) now w).2.ledger dataset_id = some e ∧
      e.last_hash = sha256 raw := by
  have henb : (tbl != "") = true := bne_iff_ne.mpr htbl
  cases hget : ddbGet w.ledger dataset_id with
  | none =>
    cases s3ok with
    | true =>
      rw [put_if_new_stored_of_novel gz dataset_id url_used raw s3_bucket s3_prefix fmt
        gzip_output tbl htbl now w (fun e hc => absurd (hget ▸ hc) (by simp))]
      exact ⟨_, ddbGet_ddbPut_self _ _ _, rfl⟩
    | false =>
      rw [put_if_new_error_of_novel gz dataset_id url_used raw s3_bucket s3_prefix fmt
        gzip_output tbl htbl now w (fun e hc => absurd (hget ▸ hc) (by simp))]
      exact ⟨_, ddbGet_ddbPut_self _ _ _, rfl⟩
  | some e =>
    by_cases heq : e.last_hash = sha256 raw
    · rw [put_if_new_unchanged_of_match gz s3ok dataset_id url_used raw s3_bucket
        s3_prefix fmt gzip_output tbl htbl now w e hget heq]
      exact ⟨e, hget, heq⟩
    · have hne : ∀ e2, ddbGet w.ledger dataset_id = some e2 → e2.last_hash ≠ sha256 raw := by
        intro e2 hc
        rw [hget] at hc
        injection hc with hc
        subst hc
        exact heq
      cases s3ok with
      | true =>
        rw [put_if_new_stored_of_novel gz dataset_id url_used raw s3_bucket s3_prefix fmt
          gzip_output tbl htbl now w hne]
        exact ⟨_, ddbGet_ddbPut_self _ _ _, rfl⟩
      | false =>
        rw [put_if_new_error_of_novel gz dataset_id url_used raw s3_bucket s3_prefix fmt
          gzip_output tbl htbl now w hne]
        exact ⟨_, ddbGet_ddbPut_self _ _ _, rfl⟩

/-- `put_if_new` returns the raised archive failure, the `unchanged`
dictionary, or the `stored` dictionary — nothing else. -/
theorem put_if_new_result_cases (gz : Bytes → Bytes) (s3ok : Bool)
    (dataset_id url_used : String) (raw : Bytes) (s3_bucket s3_prefix fmt : String)
    (gzip_output : Bool) (ddb_table_name : Option String) (now : Instant) (w : World) :
    (∃ w2, put_if_new gz s3ok dataset_id url_used raw s3_bucket s3_prefix fmt gzip_output
        ddb_table_name now w = (.error s3FailureMsg, w2)) ∨
    (∃ w2, put_if_new gz s3ok dataset_id url_used raw s3_bucket s3_prefix fmt gzip_output
        ddb_table_name now w =
      (.ok { stored := some false, reason := some "unchanged",
             hash := some (sha256 raw), url := some url_used }, w2)) ∨
    (∃ w2 key, put_if_new gz s3ok dataset_id url_used raw s3_bucket s3_prefix fmt gzip_output
        ddb_table_name now w =
      (.ok { stored := some true, s3_key := some key,
             hash := some (sha256 raw), url := some url_used }, w2)) := by
  simp only [put_if_new]
  repeat' split
  all_goals first
    | (left; exact ⟨_, rfl⟩)
    | (right; left; exact ⟨_, rfl⟩)
    | (right; right; exact ⟨_, _, rfl⟩)

/-- When the fetch succeeds, the world after `processDataset` is the world
after the `put_if_new` call it makes. -/
theorem processDataset_world_of_ok (c : Ctx) (ds : String) (w : World) (raw : Bytes)
    (url : String) (hf : fetchOf c ds = .ok (raw, url)) :
    (processDataset c ds w).2 =
      (put_if_new c.gz (c.s3ok ds) ds url raw c.s3_bucket c.s3_prefix c.fmt
        c.gzip_output c.ddb_table c.now w).2 := by
  simp only [processDataset, hf]
  rcases hput : put_if_new c.gz (c.s3ok ds) ds url raw c.s3_bucket c.s3_prefix c.fmt
    c.gzip_output c.ddb_table c.now w with ⟨res, w2⟩
  cases res <;> simp

/-- Every `processDataset` result is tagged with its dataset id and takes
exactly one of three shapes: stored, unchanged, or an error with a
non-empty message. -/
theorem processDataset_shape (c : Ctx) (ds : String) (w : World) :
    (processDataset c ds w).1.dataset = some ds ∧
    ((processDataset c ds w).1.stored = some true ∧
        (processDataset c ds w).1.reason = none ∧
        (processDataset c ds w).1.error = none ∨
     (processDataset c ds w).1.stored = some false ∧
        (processDataset c ds w).1.reason = some "unchanged" ∧
        (processDataset c ds w).1.error = none ∨
     (processDataset c ds w).1.stored = none ∧
        (processDataset c ds w).1.reason = none ∧
        ∃ m, (processDataset c ds w).1.error = some m ∧ m ≠ "") := by
  cases hf : fetchOf c ds with
  | error e =>
    have hne : e ≠ "" :=
      fetch_oecd_error_ne_empty c.net ds (keyPathOf c ds) c.last_n_obs c.fmt c.now e hf
    refine ⟨by simp [processDataset, hf], Or.inr (Or.inr ?_)⟩
    simp [processDataset, hf, hne]
  | ok pr =>
    obtain ⟨raw, url⟩ := pr
    rcases put_if_new_result_cases c.gz (c.s3ok ds) ds url raw c.s3_bucket c.s3_prefix
      c.fmt c.gzip_output c.ddb_table c.now w with ⟨w2, hput⟩ | ⟨w2, hput⟩ | ⟨w2, key, hput⟩
    · refine ⟨by simp [processDataset, hf, hput], Or.inr (Or.inr ?_)⟩
      refine ⟨?_, ?_, s3FailureMsg, ?_, by decide⟩ <;> simp [processDataset, hf, hput]
    · exact ⟨by simp [processDataset, hf, hput], Or.inr (Or.inl (by simp [processDataset, hf, hput]))⟩
    · exact ⟨by simp [processDataset, hf, hput], Or.inl (by simp [processDataset, hf, hput])⟩

/-- `processDataset` for one dataset never disturbs another dataset's ledger
entry. -/
theorem processDataset_ledger_frame (c : Ctx) (ds ds2 : String) (w : World)
    (hne : ds2 ≠ ds) :
    ddbGet (processDataset c ds w).2.ledger ds2 = ddbGet w.ledger ds2 := by
  cases hf : fetchOf c ds with
  | error e => simp [processDataset, hf]
  | ok pr =>
    obtain ⟨raw, url⟩ := pr
    rw [processDataset_world_of_ok c ds w raw url hf]
    rcases put_if_new_world_ledger c.gz (c.s3ok ds) ds url raw c.s3_bucket c.s3_prefix
      c.fmt c.gzip_output c.ddb_table c.now w with hl | hl
    · rw [hl]
    · rw [hl, ddbGet_ddbPut_ne _ _ _ _ hne]

/-- With the ledger enabled, a non-error `processDataset` run leaves the
dataset's ledger entry holding the digest of the payload it fetched. -/
theorem processDataset_post (c : Ctx) (ds : String) (w : World) (t : String)
    (hdt : c.ddb_table = some t) (htne : t ≠ "")
    (hok : (processDataset c ds w).1.error = none) :
    ∃ blob url e, fetchOf c ds = .ok (blob, url) ∧
      ddbGet (processDataset c ds w).2.ledger ds = some e ∧
      e.last_hash = sha256 blob := by
  cases hf : fetchOf c ds with
  | error e =>
    exfalso
    simp [processDataset, hf] at hok
  | ok pr =>
    obtain ⟨raw, url⟩ := pr
    have hw := processDataset_world_of_ok c ds w raw url hf
    have h := put_if_new_ledger_post c.gz (c.s3ok ds) ds url raw c.s3_bucket c.s3_prefix
      c.fmt c.gzip_output t htne c.now w
    rw [← hdt, ← hw] at h
    obtain ⟨e, hg, hh⟩ := h
    exact ⟨raw, url, e, rfl, hg, hh⟩

/-- The dataset loop produces one result per configured dataset. -/
theorem runDatasets_length (c : Ctx) : ∀ (l : List String) (w : World),
    (runDatasets c l w).1.length = l.length := by
  intro l
  induction l with
  | nil => intro w; simp [runDatasets]
  | cons d rest ih => intro w; simp [runDatasets, ih]

/-- Every result of the dataset loop has one of the three shapes. -/
theorem runDatasets_shape (c : Ctx) : ∀ (l : List String) (w : World) r,
    r ∈ (runDatasets c l w).1 →
    (r.stored = some true ∧ r.reason = none ∧ r.error = none) ∨
    (r.stored = some false ∧ r.reason = some "unchanged" ∧ r.error = none) ∨
    (r.stored = none ∧ r.reason = none ∧ ∃ m, r.error = some m ∧ m ≠ "") := by
  intro l
  induction l with
  | nil => intro w r hr; simp [runDatasets] at hr
  | cons d rest ih =>
    intro w r hr
    simp only [runDatasets] at hr
    rcases List.mem_cons.mp hr with rfl | hmem
    · exact (processDataset_shape c d w).2
    · exact ih _ r hmem

/-- The dataset loop never disturbs the ledger entry of a dataset outside
its list. -/
theorem runDatasets_ledger_frame (c : Ctx) : ∀ (l : List String) (w : World) (ds : String),
    ds ∉ l → ddbGet (runDatasets c l w).2.ledger ds = ddbGet w.ledger ds := by
  intro l
  induction l with
  | nil => intro w ds _; simp [runDatasets]
  | cons d rest ih =>
    intro w ds h
    have hd : ds ≠ d := fun hc => h (hc ▸ List.mem_cons_self d rest)
    have hrest : ds ∉ rest := fun hc => h (List.mem_cons_of_mem d hc)
    simp only [runDatasets]
    rw [ih _ ds hrest, processDataset_ledger_frame c d ds w hd]

/-- With the ledger enabled, an error-free run leaves every processed
dataset's ledger entry holding the digest of the payload fetched for it. -/
theorem runDatasets_ledger_post (c : Ctx) (t : String) (hdt : c.ddb_table = some t)
    (htne : t ≠ "") : ∀ (l : List String) (w : World),
    (∀ r ∈ (runDatasets c l w).1, r.error = none) →
    ∀ ds ∈ l, ∃ blob url e, fetchOf c ds = .ok (blob, url) ∧
      ddbGet (runDatasets c l w).2.ledger ds = some e ∧ e.last_hash = sha256 blob := by
  intro l
  induction l with
  | nil => intro w _ ds hds; simp at hds
  | cons d rest ih =>
    intro w hall ds hds
    have hhead : (processDataset c d w).1.error = none := by
      apply hall
      simp only [runDatasets]
      exact List.mem_cons_self _ _
    have hrest : ∀ r ∈ (runDatasets c rest (processDataset c d w).2).1, r.error = none := by
      intro r hr
      apply hall
      simp only [runDatasets]
      exact List.mem_cons_of_mem _ hr
    rcases List.mem_cons.mp hds with rfl | hmem
    · by_cases hin : ds ∈ rest
      · obtain ⟨blob, url, e, hf, hg, hh⟩ := ih _ hrest ds hin
        exact ⟨blob, url, e, hf, by simp only [runDatasets]; exact hg, hh⟩
      · obtain ⟨blob, url, e, hf, hg, hh⟩ := processDataset_post c ds w t hdt htne hhead
        refine ⟨blob, url, e, hf, ?_, hh⟩
        simp only [runDatasets]
        rw [runDatasets_ledger_frame c rest _ ds hin]
        exact hg
    · obtain ⟨blob, url, e, hf, hg, hh⟩ := ih _ hrest ds hmem
      exact ⟨blob, url, e, hf, by simp only [runDatasets]; exact hg, hh⟩

/-- With the ledger enabled, a run over datasets whose entries already hold
the digests of the payloads their fetches return changes nothing and
reports every dataset unchanged. -/
theorem runDatasets_all_unchanged (c : Ctx) (t : String) (hdt : c.ddb_table = some t)
    (htne : t ≠ "") : ∀ (l : List String) (w : World),
    (∀ ds ∈ l, ∃ blob url e, fetchOf c ds = .ok (blob, url) ∧
        ddbGet w.ledger ds = some e ∧ e.last_hash = sha256 blob) →
    (runDatasets c l w).2 = w ∧
    ∀ r ∈ (runDatasets c l w).1,
      r.stored = some false ∧ r.reason = some "unchanged" ∧ r.error = none := by
  intro l
  induction l with
  | nil =>
    intro w _
    exact ⟨by simp [runDatasets], by intro r hr; simp [runDatasets] at hr⟩
  | cons d rest ih =>
    intro w hinv
    obtain ⟨blob, url, e, hf, hg, hh⟩ := hinv d (List.mem_cons_self _ _)
    have hstep : processDataset c d w =
        ({ dataset := some d, stored := some false, reason := some "unchanged",
           hash := some (sha256 blob), url := some url }, w) := by
      simp only [processDataset, hf]
      rw [hdt, put_if_new_unchanged_of_match c.gz (c.s3ok d) d url blob c.s3_bucket
        c.s3_prefix c.fmt c.gzip_output t htne c.now w e hg hh]
    obtain ⟨ihw, ihr⟩ := ih w (fun ds hds => hinv ds (List.mem_cons_of_mem _ hds))
    constructor
    · simp only [runDatasets, hstep]
      exact ihw
    · intro r hr
      simp only [runDatasets, hstep] at hr
      rcases List.mem_cons.mp hr with rfl | hmem
      · exact ⟨rfl, rfl, rfl⟩
      · exact ihr r hmem

/-- In a report with zero errors, no result has an error key at all. -/
theorem errors_zero_all_none (c : Ctx) (datasets : List String) (w : World)
    (herr : (lambda_handler c datasets w).1.errors = 0) :
    ∀ r ∈ (runDatasets c datasets w).1, r.error = none := by
  intro r hr
  have hlen : ((runDatasets c datasets w).1.filter isErrResult).length = 0 := herr
  have hfil : (runDatasets c datasets w).1.filter isErrResult = [] :=
    List.length_eq_zero.mp hlen
  have hnot := List.filter_eq_nil_iff.mp hfil r hr
  rcases runDatasets_shape c datasets w r hr with ⟨_, _, h3⟩ | ⟨_, _, h3⟩ | ⟨_, _, m, h3, h4⟩
  · exact h3
  · exact h3
  · exact absurd (by simp [isErrResult, truthyStr, h3, bne_iff_ne.mpr h4]) hnot

/-- C7: with the ledger enabled in both invocations, if the first run
reported no errors and the second run's fetches return exactly what the
first run's did (no upstream data change), then the second run reports
every dataset unchanged — unchanged count equal to the dataset count, zero
stored, zero errors, status 200 — and leaves the world identical: zero new
archive objects and an untouched ledger. -/
theorem C7_idempotence (c c2 : Ctx) (datasets : List String) (w0 : World)
    (henb : ledgerEnabled c = true) (henb2 : ledgerEnabled c2 = true)
    (hfetch : ∀ ds ∈ datasets, fetchOf c2 ds = fetchOf c ds)
    (herr : (lambda_handler c datasets w0).1.errors = 0) :
    (lambda_handler c2 datasets (lambda_handler c datasets w0).2).1.unchanged =
      datasets.length ∧
    (lambda_handler c2 datasets (lambda_handler c datasets w0).2).1.stored = 0 ∧
    (lambda_handler c2 datasets (lambda_handler c datasets w0).2).1.errors = 0 ∧
    (lambda_handler c2 datasets (lambda_handler c datasets w0).2).1.statusCode = 200 ∧
    (lambda_handler c2 datasets (lambda_handler c datasets w0).2).2 =
      (lambda_handler c datasets w0).2 := by
  obtain ⟨t, hdt, htne⟩ : ∃ t, c.ddb_table = some t ∧ t ≠ "" := by
    cases hd : c.ddb_table with
    | none => rw [ledgerEnabled, hd] at henb; cases henb
    | some t =>
      rw [ledgerEnabled, hd] at henb
      exact ⟨t, rfl, bne_iff_ne.mp henb⟩
  obtain ⟨t2, hdt2, htne2⟩ : ∃ t2, c2.ddb_table = some t2 ∧ t2 ≠ "" := by
    cases hd : c2.ddb_table with
    | none => rw [ledgerEnabled, hd] at henb2; cases henb2
    | some t2 =>
      rw [ledgerEnabled, hd] at henb2
      exact ⟨t2, rfl, bne_iff_ne.mp henb2⟩
  have hall := errors_zero_all_none c datasets w0 herr
  have hpost := runDatasets_ledger_post c t hdt htne datasets w0 hall
  have hinv : ∀ ds ∈ datasets, ∃ blob url e, fetchOf c2 ds = .ok (blob, url) ∧
      ddbGet (lambda_handler c datasets w0).2.ledger ds = some e ∧
      e.last_hash = sha256 blob := by
    intro ds hds
    obtain ⟨blob, url, e, hf, hg, hh⟩ := hpost ds hds
    exact ⟨blob, url, e, by rw [hfetch ds hds]; exact hf, hg, hh⟩
  obtain ⟨hw2, hshape⟩ := runDatasets_all_unchanged c2 t2 hdt2 htne2 datasets
    (lambda_handler c datasets w0).2 hinv
  have hokall : ∀ r ∈ (runDatasets c2 datasets (lambda_handler c datasets w0).2).1,
      isOkResult r = true := by
    intro r hr
    obtain ⟨h1, h2, _⟩ := hshape r hr
    simp [isOkResult, truthyBool, h1, h2]
  have herrall : ∀ r ∈ (runDatasets c2 datasets (lambda_handler c datasets w0).2).1,
      ¬ isErrResult r = true := by
    intro r hr
    obtain ⟨_, _, h3⟩ := hshape r hr
    simp [isErrResult, truthyStr, h3]
  have hfilok : (runDatasets c2 datasets (lambda_handler c datasets w0).2).1.filter
      isOkResult = (runDatasets c2 datasets (lambda_handler c datasets w0).2).1 :=
    List.filter_eq_self.mpr hokall
  have hfilerr : (runDatasets c2 datasets (lambda_handler c datasets w0).2).1.filter
      isErrResult = [] := List.filter_eq_nil_iff.mpr herrall
  have hfilstored : (runDatasets c2 datasets (lambda_handler c datasets w0).2).1.filter
      (fun r => truthyBool r.stored) = [] := by
    apply List.filter_eq_nil_iff.mpr
    intro r hr
    obtain ⟨h1, _, _⟩ := hshape r hr
    simp [truthyBool, h1]
  have hfilunch : (runDatasets c2 datasets (lambda_handler c datasets w0).2).1.filter
      (fun r => r.reason == some "unchanged") =
      (runDatasets c2 datasets (lambda_handler c datasets w0).2).1 := by
    apply List.filter_eq_self.mpr
    intro r hr
    obtain ⟨_, h2, _⟩ := hshape r hr
    simp [h2]
  refine ⟨?_, ?_, ?_, ?_, hw2⟩
  · show (((runDatasets c2 datasets (lambda_handler c datasets w0).2).1.filter
        isOkResult).filter (fun r => r.reason == some "unchanged")).length = datasets.length
    rw [hfilok, hfilunch]
    exact runDatasets_length c2 datasets _
  · show (((runDatasets c2 datasets (lambda_handler c datasets w0).2).1.filter
        isOkResult).filter (fun r => truthyBool r.stored)).length = 0
    rw [hfilok, hfilstored]
    rfl
  · show ((runDatasets c2 datasets (lambda_handler c datasets w0).2).1.filter
        isErrResult).length = 0
    rw [hfilerr]
    rfl
  · show (if ((runDatasets c2 datasets (lambda_handler c datasets w0).2).1.filter
        isErrResult).length = 0 then 200 else 207) = 200
    rw [hfilerr]
    rfl

set_option maxRecDepth 16000 in
/-- C7 (counterexample): without the dedupe ledger the pipeline is not
idempotent as claimed — running the same configuration twice over dataset
`A` with byte-identical fetches reports the second run as stored, not
unchanged, and a second archive object exists afterwards. -/
theorem C7_counterexample :
    (lambda_handler ctxBase ["A"] (lambda_handler ctxBase ["A"] ⟨[], []⟩).2).1.stored = 1 ∧
    (lambda_handler ctxBase ["A"] (lambda_handler ctxBase ["A"] ⟨[], []⟩).2).1.unchanged = 0 ∧
    (lambda_handler ctxBase ["A"] (lambda_handler ctxBase ["A"] ⟨[], []⟩).2).2.s3.length = 2 := by
  decide

set_option maxRecDepth 8000 in
/-- C7 (witness): a concrete ledger-enabled invocation over dataset `A`
whose first run stores the payload; rerunning on the resulting world
reports one unchanged dataset, nothing stored, no errors, status 200, and
an identical world. -/
theorem C7_witness :
    (lambda_handler ctxLedger ["A"] (lambda_handler ctxLedger ["A"] ⟨[], []⟩).2).1.unchanged
      = 1 ∧
    (lambda_handler ctxLedger ["A"] (lambda_handler ctxLedger ["A"] ⟨[], []⟩).2).1.stored
      = 0 ∧
    (lambda_handler ctxLedger ["A"] (lambda_handler ctxLedger ["A"] ⟨[], []⟩).2).1.errors
      = 0 ∧
    (lambda_handler ctxLedger ["A"] (lambda_handler ctxLedger ["A"] ⟨[], []⟩).2).1.statusCode
      = 200 ∧
    (lambda_handler ctxLedger ["A"] (lambda_handler ctxLedger ["A"] ⟨[], []⟩).2).2 =
      (lambda_handler ctxLedger ["A"] ⟨[], []⟩).2 := by
  have h := C7_idempotence ctxLedger ctxLedger ["A"] ⟨[], []⟩ (by decide) (by decide)
    (fun ds _ => rfl) (by decide)
  simpa using h

/-- For any result list in which every entry has one of the three shapes,
the aggregator's three counts add up to the number of results. -/
theorem counts_sum (rs : List ResultDict)
    (h : ∀ r ∈ rs,
      (r.stored = some true ∧ r.reason = none ∧ r.error = none) ∨
      (r.stored = some false ∧ r.reason = some "unchanged" ∧ r.error = none) ∨
      (r.stored = none ∧ r.reason = none ∧ ∃ m, r.error = some m ∧ m ≠ "")) :
    ((rs.filter isOkResult).filter (fun r => truthyBool r.stored)).length +
    ((rs.filter isOkResult).filter (fun r => r.reason == some "unchanged")).length +
    (rs.filter isErrResult).length = rs.length := by
  induction rs with
  | nil => simp
  | cons r rest ih =>
    have hrest := ih (fun x hx => h x (List.mem_cons_of_mem _ hx))
    rcases h r (List.mem_cons_self _ _) with ⟨h1, h2, h3⟩ | ⟨h1, h2, h3⟩ | ⟨h1, h2, m, h3, h4⟩
    · have e1 : isOkResult r = true := by simp [isOkResult, truthyBool, h1]
      have e2 : truthyBool r.stored = true := by simp [truthyBool, h1]
      have e3 : (r.reason == some "unchanged") = false := by simp [h2]
      have e4 : isErrResult r = false := by simp [isErrResult, truthyStr, h3]
      simp only [List.filter_cons, e1, e2, e3, e4, if_true, if_false, List.length_cons,
        Bool.false_eq_true, ite_false, ite_true]
      omega
    · have e1 : isOkResult r = true := by simp [isOkResult, truthyBool, h1, h2]
      have e2 : truthyBool r.stored = false := by simp [truthyBool, h1]
      have e3 : (r.reason == some "unchanged") = true := by simp [h2]
      have e4 : isErrResult r = false := by simp [isErrResult, truthyStr, h3]
      simp only [List.filter_cons, e1, e2, e3, e4, if_true, if_false, List.length_cons,
        Bool.false_eq_true, ite_false, ite_true]
      omega
    · have e1 : isOkResult r = false := by simp [isOkResult, truthyBool, h1, h2]
      have e4 : isErrResult r = true := by
        simp [isErrResult, truthyStr, h3, bne_iff_ne.mpr h4]
      simp only [List.filter_cons, e1, e4, if_true, if_false, List.length_cons,
        Bool.false_eq_true, ite_false, ite_true]
      omega

set_option maxRecDepth 16000 in
/-- C3 (counterexample): the overall status code alone cannot distinguish
partial from total failure — with datasets A, B, C where only B's fetch
fails, the report has status 207, one error and two stored; with every
fetch failing, the report again has status 207, three errors and nothing
stored or unchanged. -/
theorem C3_counterexample :
    (lambda_handler ctxPartialFail ["A", "B", "C"] ⟨[], []⟩).1.statusCode = 207 ∧
    (lambda_handler ctxPartialFail ["A", "B", "C"] ⟨[], []⟩).1.errors = 1 ∧
    (lambda_handler ctxPartialFail ["A", "B", "C"] ⟨[], []⟩).1.stored = 2 ∧
    (lambda_handler ctxPartialFail ["A", "B", "C"] ⟨[], []⟩).1.unchanged = 0 ∧
    (lambda_handler ctxTotalFail ["A", "B", "C"] ⟨[], []⟩).1.statusCode = 207 ∧
    (lambda_handler ctxTotalFail ["A", "B", "C"] ⟨[], []⟩).1.errors = 3 ∧
    (lambda_handler ctxTotalFail ["A", "B", "C"] ⟨[], []⟩).1.stored = 0 ∧
    (lambda_handler ctxTotalFail ["A", "B", "C"] ⟨[], []⟩).1.unchanged = 0 := by decide

/-- C3 (amended): the status code is 200 exactly when no dataset errored and
the partial-failure sentinel 207 otherwise; total success, partial failure
and total failure are distinguished by the caller from the summary counts,
which always satisfy stored + unchanged + errors = number of datasets, with
errors counting the failing datasets exactly. -/
theorem C3_status_classification (c : Ctx) (datasets : List String) (w : World) :
    (lambda_handler c datasets w).1.statusCode =
      (if (lambda_handler c datasets w).1.errors = 0 then 200 else 207) ∧
    (lambda_handler c datasets w).1.stored + (lambda_handler c datasets w).1.unchanged +
      (lambda_handler c datasets w).1.errors = datasets.length := by
  constructor
  · rfl
  · show (((runDatasets c datasets w).1.filter isOkResult).filter
        (fun r => truthyBool r.stored)).length +
      (((runDatasets c datasets w).1.filter isOkResult).filter
        (fun r => r.reason == some "unchanged")).length +
      ((runDatasets c datasets w).1.filter isErrResult).length = datasets.length
    rw [counts_sum _ (fun r hr => runDatasets_shape c datasets w r hr)]
    exact runDatasets_length c datasets w

/-- C10: every report has exactly one result per configured dataset, each
result takes exactly one of the three mutually exclusive shapes — stored,
unchanged, or error — and the summary counts satisfy
stored + unchanged + errors = number of configured datasets. -/
theorem C10_result_trichotomy (c : Ctx) (datasets : List String) (w : World) :
    (lambda_handler c datasets w).1.results.length = datasets.length ∧
    (∀ r ∈ (lambda_handler c datasets w).1.results,
      (r.stored = some true ∧ ¬ (r.stored = some false ∧ r.reason = some "unchanged") ∧
          ¬ ∃ m, r.error = some m ∧ m ≠ "") ∨
      ((r.stored = some false ∧ r.reason = some "unchanged") ∧ ¬ r.stored = some true ∧
          ¬ ∃ m, r.error = some m ∧ m ≠ "") ∨
      ((∃ m, r.error = some m ∧ m ≠ "") ∧ ¬ r.stored = some true ∧
          ¬ (r.stored = some false ∧ r.reason = some "unchanged"))) ∧
    (lambda_handler c datasets w).1.stored + (lambda_handler c datasets w).1.unchanged +
      (lambda_handler c datasets w).1.errors = datasets.length := by
  refine ⟨runDatasets_length c datasets w, ?_, ?_⟩
  · intro r hr
    rcases runDatasets_shape c datasets w r hr with
      ⟨h1, h2, h3⟩ | ⟨h1, h2, h3⟩ | ⟨h1, h2, m, h3, h4⟩
    · left
      refine ⟨h1, ?_, ?_⟩
      · rintro ⟨hc, -⟩
        simp [h1] at hc
      · rintro ⟨m, hm, -⟩
        simp [h3] at hm
    · right
      left
      refine ⟨⟨h1, h2⟩, ?_, ?_⟩
      · intro hc
        simp [h1] at hc
      · rintro ⟨m, hm, -⟩
        simp [h3] at hm
    · right
      right
      refine ⟨⟨m, h3, h4⟩, ?_, ?_⟩
      · intro hc
        simp [h1] at hc
      · rintro ⟨hc, -⟩
        simp [h1] at hc
  · show (((runDatasets c datasets w).1.filter isOkResult).filter
        (fun r => truthyBool r.stored)).length +
      (((runDatasets c datasets w).1.filter isOkResult).filter
        (fun r => r.reason == some "unchanged")).length +
      ((runDatasets c datasets w).1.filter isErrResult).length = datasets.length
    rw [counts_sum _ (fun r hr => runDatasets_shape c datasets w r hr)]
    exact runDatasets_length c datasets w

end OecdIngest
